import Mathlib

/-!
Verification development for the price-scraping pipeline in `scraper.py`
(store detection, price-text normalization, per-store document parsers,
two-tier fetch strategies with fallback, and the extraction orchestrator).

Python strings are modelled as Lean `String` / `List Char`, Python `float`
values arising from decimal price text as `ℚ` (decimal text parses exactly
into `ℚ`), Python `None`-able values as `Option`, and Python dictionaries
with a fixed key set as structures.  Effectful steps (HTTP fetch, browser
rendering) are abstracted as oracle functions supplied to the pure
orchestration logic, mirroring the code's call structure.
-/

/-! ## Price text normalizer (`parse_price_text`, scraper.py lines 66-85) -/

/-- Characters kept by the cleaning step `re.sub(r'[^\d.,]', '', ...)`:
digits, period, comma. -/
def isPriceChar (c : Char) : Bool := c.isDigit || c == '.' || c == ','

/-- The cleaned character list: `re.sub(r'[^\d.,]', '', text.strip())`.
(`.strip()` only removes leading/trailing whitespace, which the filter
discards anyway, so filtering the raw characters is an exact model.) -/
def clean_chars (text : String) : List Char := text.toList.filter isPriceChar

/-- Python `s.rfind(c)`: highest index of `c` in the list, `-1` if absent. -/
def rfind (l : List Char) (c : Char) : Int :=
  match l with
  | [] => -1
  | a :: as =>
    let r := rfind as c
    if 0 ≤ r then r + 1
    else if a = c then 0 else -1

/-- Python `s.replace(c, '', n)`: remove the first `n` occurrences of `c`. -/
def removeOcc (c : Char) : Nat → List Char → List Char
  | _, [] => []
  | 0, l => l
  | n+1, a :: as => if a = c then removeOcc c n as else a :: removeOcc c (n+1) as

/-- Value of a (possibly empty) list of decimal digit characters. -/
def digitsToNat (l : List Char) : Nat :=
  l.foldl (fun n c => 10 * n + (c.toNat - '0'.toNat)) 0

/-- Python `float(s)` restricted to the post-cleaning alphabet `[0-9.,]`:
it succeeds exactly when `s` has no comma, at most one period, and at least
one digit.  The value is returned in exact decimal representation, as the
pair (digit string read as an integer, number of fractional digits). -/
def pyFloatRepr (l : List Char) : Option (Nat × Nat) :=
  if l.all (fun c => c.isDigit || c == '.') ∧ l.count '.' ≤ 1 ∧ l.any Char.isDigit then
    let intPart := l.takeWhile (fun c => c != '.')
    let fracPart := (l.dropWhile (fun c => c != '.')).drop 1
    some (digitsToNat (intPart ++ fracPart), fracPart.length)
  else
    none

/-- Numeric value of a decimal representation: mantissa / 10 ^ fracDigits. -/
def pyFloatVal (r : Nat × Nat) : ℚ := (r.1 : ℚ) / 10 ^ r.2

/-- The cleaning and separator-disambiguation logic of `parse_price_text`
(scraper.py 66-85), producing the exact decimal representation:
  - empty input text: no value (`if not text: return None`);
  - both `,` and `.` present in the cleaned text: if the last `,` is after
    the last `.`, drop all periods and turn commas into periods, else drop
    all commas;
  - only `,` present: commas become periods;
  - more than one `.` and no comma: drop all but the last period
    (`cleaned.replace('.', '', count-1)` removes the first `count-1`);
  - finally convert with `float`, a failure yielding no value. -/
def parse_price_repr (text : String) : Option (Nat × Nat) :=
  if text = "" then none
  else
    let cleaned := clean_chars text
    let cleaned2 :=
      if ',' ∈ cleaned ∧ '.' ∈ cleaned then
        if rfind cleaned ',' > rfind cleaned '.' then
          (cleaned.filter (fun c => c != '.')).map (fun c => if c = ',' then '.' else c)
        else
          cleaned.filter (fun c => c != ',')
      else if ',' ∈ cleaned then
        cleaned.map (fun c => if c = ',' then '.' else c)
      else if 1 < cleaned.count '.' then
        removeOcc '.' (cleaned.count '.' - 1) cleaned
      else
        cleaned
    pyFloatRepr cleaned2

/-- `parse_price_text` (scraper.py 66-85): the decimal representation
computed by `parse_price_repr`, interpreted as a number. -/
def parse_price_text (text : String) : Option ℚ :=
  (parse_price_repr text).map pyFloatVal

/-- The separator the spec designates as the decimal point when both are
present: whichever of `,` and `.` occurs later in the cleaned string. -/
def spec_decimal_sep (l : List Char) : Char :=
  if rfind l ',' > rfind l '.' then ',' else '.'

/-- The spec's description of the both-separators-present case: every
occurrence of the non-decimal separator is removed, and the decimal
separator is written as `.`. -/
def spec_both_transform (l : List Char) : List Char :=
  let dec := spec_decimal_sep l
  let other := if dec = ',' then '.' else ','
  (l.filter (fun c => c != other)).map (fun c => if c = dec then '.' else c)

/-! ## Store detector (`detect_store`, scraper.py lines 42-59) -/

/-- Does `pat` occur at the start of `hay`? -/
def startsWith : List Char → List Char → Bool
  | _, [] => true
  | [], _ :: _ => false
  | a :: as, b :: bs => a = b && startsWith as bs

/-- Python's `pat in hay` substring test. -/
def hasSub (pat : List Char) : List Char → Bool
  | [] => startsWith [] pat
  | c :: rest => startsWith (c :: rest) pat || hasSub pat rest

/-- Python `s.lower()` (character-wise, as URLs are ASCII). -/
def py_lower (s : String) : List Char := s.toList.map Char.toLower

/-- Python `pat in s` where `s` is the lower-cased URL. -/
def substrIn (pat : String) (s : List Char) : Bool := hasSub pat.toList s

/-- `detect_store` (scraper.py 42-59): ordered substring tests on the
lower-cased URL, defaulting to "generic". -/
def detect_store (url : String) : String :=
  let url_lower := py_lower url
  if substrIn "mercadolibre" url_lower || substrIn "meli" url_lower then "mercadolibre"
  else if substrIn "amazon" url_lower then "amazon"
  else if substrIn "hardgamers" url_lower then "hardgamers"
  else if substrIn "garbarino" url_lower then "garbarino"
  else if substrIn "fravega" url_lower then "fravega"
  else if substrIn "musimundo" url_lower then "musimundo"
  else if substrIn "fullh4rd" url_lower then "fullh4rd"
  else "generic"

/-- The spec's description of the detector: an ordered list of
(store, substring patterns) rules. -/
def store_rules : List (String × List String) :=
  [("mercadolibre", ["mercadolibre", "meli"]),
   ("amazon", ["amazon"]),
   ("hardgamers", ["hardgamers"]),
   ("garbarino", ["garbarino"]),
   ("fravega", ["fravega"]),
   ("musimundo", ["musimundo"]),
   ("fullh4rd", ["fullh4rd"])]

/-- The detector as worded by the spec: lower-case the URL, take the first
rule one of whose patterns is a substring, else "generic". -/
def detect_spec (url : String) : String :=
  let u := py_lower url
  match store_rules.find? (fun r => r.2.any (fun p => substrIn p u)) with
  | some r => r.1
  | none => "generic"

/-- The store identifiers the detector can produce. -/
def store_names : List String :=
  ["mercadolibre", "amazon", "hardgamers", "garbarino", "fravega",
   "musimundo", "fullh4rd", "generic"]

/-! ## Parsed documents and per-store parsers (scraper.py lines 88-226)

A `BeautifulSoup` document is modelled by the results of the finitely many
queries the four parsers perform on it: each `soup.find(selector)` becomes
an `Option String` field (`some` = the tag exists, carrying the text /
attribute value the parser reads from it; tags whose `content` attribute is
missing read as `some ""` via `.get("content", "")`), each
`soup.find(string=regex)` stock-phrase search becomes a `Bool`, and the
`soup.find_all(class_=r'price|precio')` scan of `parse_generic` becomes the
list of matched elements' texts in document order. -/

structure Doc where
  ml_h1_ui_pdp : Option String := none
  ml_h1_item : Option String := none
  ml_span_fraction : Option String := none
  ml_span_cents : Option String := none
  ml_meta_price_content : Option String := none
  ml_no_stock : Bool := false
  az_product_title : Option String := none
  az_priceblock_ourprice : Option String := none
  az_priceblock_dealprice : Option String := none
  az_a_price_whole : Option String := none
  az_price_inside_buybox : Option String := none
  az_a_price_fraction : Option String := none
  az_unavailable : Bool := false
  az_price_symbol : Option String := none
  hg_h1_product_title : Option String := none
  hg_h1 : Option String := none
  hg_price_tag : Option String := none
  hg_no_stock : Bool := false
  meta_og_title : Option String := none
  h1_any : Option String := none
  meta_og_price : Option String := none
  price_class_texts : List String := []

/-- The `result` dictionary each parser builds:
`{"price": ..., "currency": ..., "in_stock": ..., "name": ...}`. -/
structure RawData where
  name : String
  price : Option ℚ
  currency : String
  in_stock : Bool
deriving DecidableEq

/-- Python truthiness of an optional float: `None` and `0.0` are falsy. -/
def truthyPrice : Option ℚ → Bool
  | none => false
  | some q => decide (q ≠ 0)

/-- Python `a or b` on optional tag finds: first present one. -/
def orFind (a b : Option String) : Option String :=
  match a with
  | some x => some x
  | none => b

/-- `parse_mercadolibre` (scraper.py 88-120). -/
def parse_mercadolibre (soup : Doc) (_url : String) : RawData :=
  let name := match orFind soup.ml_h1_ui_pdp soup.ml_h1_item with
    | some t => t
    | none => ""
  let price := match soup.ml_span_fraction with
    | some t =>
      let price_text := match soup.ml_span_cents with
        | some c => t ++ "." ++ c
        | none => t
      parse_price_text price_text
    | none =>
      match soup.ml_meta_price_content with
      | some content => parse_price_text content
      | none => none
  { name := name, price := price, currency := "ARS", in_stock := !soup.ml_no_stock }

/-- The price-selector loop of `parse_amazon` (scraper.py 138-148): for each
selector in order, when the tag exists, append the fraction part when
available and the text has no period, parse, and stop at the first truthy
price; `result["price"]` keeps the last parse attempt otherwise. -/
def az_price_loop (frac : Option String) : List (Option String) → Option ℚ → Option ℚ
  | [], acc => acc
  | none :: rest, acc => az_price_loop frac rest acc
  | some t :: rest, _acc =>
    let price_text := match frac with
      | some f => if '.' ∈ t.toList then t else t ++ "." ++ f
      | none => t
    let p := parse_price_text price_text
    if truthyPrice p then p else az_price_loop frac rest p

/-- `parse_amazon` (scraper.py 123-164). -/
def parse_amazon (soup : Doc) (_url : String) : RawData :=
  let name := match soup.az_product_title with
    | some t => t
    | none => ""
  let price := az_price_loop soup.az_a_price_fraction
    [soup.az_priceblock_ourprice, soup.az_priceblock_dealprice,
     soup.az_a_price_whole, soup.az_price_inside_buybox] none
  let currency := match soup.az_price_symbol with
    | some sym =>
      if '$' ∈ sym.toList then "USD"
      else if '€' ∈ sym.toList then "EUR"
      else "USD"
    | none => "USD"
  { name := name, price := price, currency := currency, in_stock := !soup.az_unavailable }

/-- `parse_hardgamers` (scraper.py 167-185). -/
def parse_hardgamers (soup : Doc) (_url : String) : RawData :=
  let name := match orFind soup.hg_h1_product_title soup.hg_h1 with
    | some t => t
    | none => ""
  let price := match soup.hg_price_tag with
    | some t => parse_price_text t
    | none => none
  { name := name, price := price, currency := "ARS", in_stock := !soup.hg_no_stock }

/-- The price scan of `parse_generic` (scraper.py 207-212): first element
with a `price|precio` class whose text parses to a truthy, positive value. -/
def first_pos_price : List String → Option ℚ
  | [] => none
  | t :: ts =>
    match parse_price_text t with
    | some p => if truthyPrice (some p) ∧ 0 < p then some p else first_pos_price ts
    | none => first_pos_price ts

/-- `parse_generic` (scraper.py 188-214).  Note: it never touches the stock
fields, so `in_stock` keeps its initial value `True`. -/
def parse_generic (soup : Doc) (_url : String) : RawData :=
  let name := match soup.meta_og_title with
    | some content => content
    | none =>
      match soup.h1_any with
      | some t => t
      | none => ""
  let price := match soup.meta_og_price with
    | some content => parse_price_text content
    | none => first_pos_price soup.price_class_texts
  { name := name, price := price, currency := "ARS", in_stock := true }

/-- The `PARSERS` dictionary (scraper.py 217-226). -/
def PARSERS_list : List (String × (Doc → String → RawData)) :=
  [("mercadolibre", parse_mercadolibre),
   ("amazon", parse_amazon),
   ("hardgamers", parse_hardgamers),
   ("garbarino", parse_generic),
   ("fravega", parse_generic),
   ("musimundo", parse_generic),
   ("fullh4rd", parse_generic),
   ("generic", parse_generic)]

/-- `PARSERS.get(store, parse_generic)`. -/
def PARSERS_get (store : String) : Doc → String → RawData :=
  match PARSERS_list.find? (fun p => p.1 == store) with
  | some p => p.2
  | none => parse_generic

/-! ## Fetch strategies and orchestrator (scraper.py lines 233-348)

The effectful part of each strategy — issuing the HTTP GET and parsing the
body, or rendering the page in a browser — is abstracted as an oracle
`String → Option Doc` mapping the URL to the acquired document, `none`
covering transport errors, non-success statuses and render failures (the
`except` paths that return `None`). -/

/-- `scrape_with_bs4` (scraper.py 233-253): fetch, dispatch the registered
parser, and report the data only when a truthy price was found. -/
def scrape_with_bs4 (http_fetch : String → Option Doc) (url store : String) :
    Option RawData :=
  match http_fetch url with
  | none => none
  | some soup =>
    let data := (PARSERS_get store) soup url
    if truthyPrice data.price then some data else none

/-- `scrape_with_playwright` (scraper.py 260-294), document-level view: the
rendered document (when navigation succeeded) is parsed and the data kept
only when a truthy price was found (`return data if data["price"] else None`). -/
def scrape_with_playwright (render_fetch : String → Option Doc) (url store : String) :
    Option RawData :=
  match render_fetch url with
  | none => none
  | some soup =>
    let data := (PARSERS_get store) soup url
    if truthyPrice data.price then some data else none

/-! ## Browser-session lifecycle of the heavy strategy (scraper.py 260-289)

`scrape_with_playwright_async` is modelled at the level of its control flow
over the rendering session: each awaited library call is an oracle `Bool`
(`true` = returns normally, `false` = raises), the rendered document is an
oracle value, and the session state tracks whether a browser is open and
how many times one was torn down.  The `async with async_playwright() as p`
block guarantees that the driver is stopped on every exit path, and
stopping the driver closes any browser it launched that is still open; the
surrounding `try/except` turns any raise into a `None` return. -/

structure PwOracle where
  import_ok : Bool
  start_ok : Bool
  launch_ok : Bool
  new_context_ok : Bool
  new_page_ok : Bool
  route_ok : Bool
  goto_ok : Bool
  wait_ok : Bool
  content_ok : Bool
  close_ok : Bool
  rendered : Doc

/-- Browser-session bookkeeping: is a browser open, and how many times has
a browser session been torn down. -/
structure SessState where
  browser_open : Bool
  teardowns : Nat

/-- Closing the session: tears down the browser if one is open. -/
def close_browser (s : SessState) : SessState :=
  if s.browser_open then { browser_open := false, teardowns := s.teardowns + 1 } else s

/-- The body of the `async with` block (scraper.py 264-280): launch,
context, page, route, goto, settle wait, content capture, explicit
`browser.close()`.  A `false` oracle step raises, leaving the session state
as it was at that point (a failing `browser.close()` leaves the browser
open for the driver shutdown to reap). -/
def pw_body (o : PwOracle) (s0 : SessState) : Except Unit Doc × SessState :=
  if !o.launch_ok then (Except.error (), s0)
  else
    let s1 : SessState := { s0 with browser_open := true }
    if !o.new_context_ok then (Except.error (), s1)
    else if !o.new_page_ok then (Except.error (), s1)
    else if !o.route_ok then (Except.error (), s1)
    else if !o.goto_ok then (Except.error (), s1)
    else if !o.wait_ok then (Except.error (), s1)
    else if !o.content_ok then (Except.error (), s1)
    else if !o.close_ok then (Except.error (), s1)
    else (Except.ok o.rendered, close_browser s1)

/-- Result of one heavy-strategy invocation: the returned value and the
number of browser-session teardowns that happened before returning. -/
structure PwTrace where
  result : Option RawData
  teardowns : Nat
deriving DecidableEq

/-- `scrape_with_playwright_async` (scraper.py 260-289) as a session trace:
the `try/except` returns `None` on any raise, the `async with` block always
stops the driver on exit (closing a still-open browser), and a captured
document is parsed outside the block, the data kept only for a truthy
price. -/
def scrape_with_playwright_async (o : PwOracle) (url store : String) : PwTrace :=
  if !o.import_ok then { result := none, teardowns := 0 }
  else if !o.start_ok then { result := none, teardowns := 0 }
  else
    let bodyRes := pw_body o { browser_open := false, teardowns := 0 }
    let sFinal := close_browser bodyRes.2
    match bodyRes.1 with
    | Except.error _ => { result := none, teardowns := sFinal.teardowns }
    | Except.ok doc =>
      let data := (PARSERS_get store) doc url
      { result := if truthyPrice data.price then some data else none
        teardowns := sFinal.teardowns }

/-- The product descriptor consumed by `scrape_product`:
`{"id": ..., "name": ..., "url": ..., "store": ...}`, the store key being
optional. -/
structure Product where
  id : Int
  name : String
  url : String
  store : Option String

/-- The `ScrapeResult` dataclass (scraper.py 26-35). -/
structure ScrapeResult where
  product_id : Int
  name : String
  url : String
  store : String
  price : Option ℚ
  currency : String
  in_stock : Bool
  error : Option String := none
deriving DecidableEq

/-- `product.get("store") or detect_store(url)` (scraper.py 307): a missing
or falsy (empty) store field falls back to URL detection. -/
def resolve_store (product : Product) : String :=
  match product.store with
  | some s => if s ≠ "" then s else detect_store product.url
  | none => detect_store product.url

/-- The success `ScrapeResult` of `scrape_product` (scraper.py 328-336):
`name = data.get("name") or original_name`, the parsed data's price,
currency and stock, no error. -/
def success_result (product : Product) (d : RawData) : ScrapeResult :=
  { product_id := product.id
    name := if d.name ≠ "" then d.name else product.name
    url := product.url
    store := resolve_store product
    price := d.price
    currency := d.currency
    in_stock := d.in_stock
    error := none }

/-- The failure `ScrapeResult` of `scrape_product` (scraper.py 339-348):
original name, no price, default currency, `in_stock=False`, and the
descriptive error message. -/
def failed_result (product : Product) : ScrapeResult :=
  { product_id := product.id
    name := product.name
    url := product.url
    store := resolve_store product
    price := none
    currency := "ARS"
    in_stock := false
    error := some "No se pudo extraer el precio con BS4 ni Playwright." }

/-- `scrape_product` (scraper.py 301-348): try BS4, fall back to Playwright
when that yields nothing or a falsy price (`if not data or not
data.get("price")`), and assemble the result according to
`if data and data.get("price")`. -/
def scrape_product (http_fetch render_fetch : String → Option Doc)
    (product : Product) : ScrapeResult :=
  let url := product.url
  let store := resolve_store product
  let data0 := scrape_with_bs4 http_fetch url store
  let data :=
    if (match data0 with
        | some d => truthyPrice d.price
        | none => false) then
      data0
    else
      scrape_with_playwright render_fetch url store
  match data with
  | some d =>
    if truthyPrice d.price then success_result product d
    else failed_result product
  | none => failed_result product

/-! ## Concrete fixtures used by witnesses -/

/-- A fixture product with no known store. -/
def wit_product : Product :=
  { id := 7, name := "Teclado mecanico", url := "https://unknownshop.com/p", store := none }

/-- A fixture document whose `product:price:amount` metadata carries "100". -/
def wit_doc_price : Doc := { meta_og_price := some "100" }

/-- A fixture document carrying an explicit out-of-stock phrase (the
stock-phrase searches of the mercadolibre/hardgamers parsers match on it). -/
def wit_doc_no_stock : Doc := { ml_no_stock := true, hg_no_stock := true }

/-- The all-steps-succeed browser session oracle. -/
def wit_oracle : PwOracle :=
  { import_ok := true, start_ok := true, launch_ok := true, new_context_ok := true,
    new_page_ok := true, route_ok := true, goto_ok := true, wait_ok := true,
    content_ok := true, close_ok := true, rendered := {} }

/-! ## Supporting lemmas -/

theorem map_if_dot_id (l : List Char) : l.map (fun c => if c = '.' then '.' else c) = l := by
  induction l with
  | nil => rfl
  | cons a t ih =>
    simp only [List.map_cons, ih]
    by_cases h : a = '.'
    · rw [if_pos h, h]
    · rw [if_neg h]

theorem bs4_some_truthy {hf : String → Option Doc} {url store : String} {d : RawData}
    (h : scrape_with_bs4 hf url store = some d) : truthyPrice d.price = true := by
  unfold scrape_with_bs4 at h
  split at h
  · simp at h
  · dsimp only at h
    split at h
    next ht =>
      simp only [Option.some.injEq] at h
      subst h
      exact ht
    next => simp at h

theorem pw_some_truthy {rf : String → Option Doc} {url store : String} {d : RawData}
    (h : scrape_with_playwright rf url store = some d) : truthyPrice d.price = true := by
  unfold scrape_with_playwright at h
  split at h
  · simp at h
  · dsimp only at h
    split at h
    next ht =>
      simp only [Option.some.injEq] at h
      subst h
      exact ht
    next => simp at h

theorem scrape_product_eq (hf rf : String → Option Doc) (p : Product) :
    scrape_product hf rf p =
      match scrape_with_bs4 hf p.url (resolve_store p) with
      | some d => success_result p d
      | none =>
        match scrape_with_playwright rf p.url (resolve_store p) with
        | some d => success_result p d
        | none => failed_result p := by
  unfold scrape_product
  rcases h0 : scrape_with_bs4 hf p.url (resolve_store p) with _ | d0
  · simp only [h0]
    rcases h1 : scrape_with_playwright rf p.url (resolve_store p) with _ | d1
    · simp [h1]
    · have ht := pw_some_truthy h1
      simp [h1, ht]
  · have ht := bs4_some_truthy h0
    simp [h0, ht]

/-! ## Claims about the price normalizer -/

/-- Claim C1: for every input string containing both a comma and a period,
`parse_price_text` treats whichever of the two separators occurs later in
the string as the decimal point and removes all occurrences of the other
separator (the transformation `spec_both_transform`), and in particular
`parse_price_text "1.234.567,89" = 1234567.89` and
`parse_price_text "1,234.56" = 1234.56`. -/
theorem claim_C1_both_separators :
    (∀ text : String, ',' ∈ text.toList → '.' ∈ text.toList →
      parse_price_text text =
        (pyFloatRepr (spec_both_transform (clean_chars text))).map pyFloatVal) ∧
    parse_price_text "1.234.567,89" = some (1234567.89 : ℚ) ∧
    parse_price_text "1,234.56" = some (1234.56 : ℚ) := by
  refine ⟨fun text hc hd => ?_, ?_, ?_⟩
  · have hc' : ',' ∈ clean_chars text := List.mem_filter.mpr ⟨hc, by decide⟩
    have hd' : '.' ∈ clean_chars text := List.mem_filter.mpr ⟨hd, by decide⟩
    have hne : ¬(text = "") := by
      intro h
      rw [h] at hc
      simp at hc
    unfold parse_price_text parse_price_repr
    rw [if_neg hne]
    dsimp only
    rw [if_pos ⟨hc', hd'⟩]
    unfold spec_both_transform spec_decimal_sep
    by_cases hgt : rfind (clean_chars text) ',' > rfind (clean_chars text) '.'
    · rw [if_pos hgt, if_pos hgt]
      simp
    · rw [if_neg hgt, if_neg hgt]
      simp [map_if_dot_id]
  · rw [parse_price_text, show parse_price_repr "1.234.567,89" = some (123456789, 2) from by decide]
    show some (pyFloatVal (123456789, 2)) = some (1234567.89 : ℚ)
    rw [Option.some.injEq, pyFloatVal]
    norm_num
  · rw [parse_price_text, show parse_price_repr "1,234.56" = some (123456, 2) from by decide]
    show some (pyFloatVal (123456, 2)) = some (1234.56 : ℚ)
    rw [Option.some.injEq, pyFloatVal]
    norm_num

/-- Witness for C1: the general statement applied at "1,234.56". -/
theorem claim_C1_both_separators_witness :
    (',' ∈ "1,234.56".toList) ∧ ('.' ∈ "1,234.56".toList) ∧
    parse_price_text "1,234.56" =
      (pyFloatRepr (spec_both_transform (clean_chars "1,234.56"))).map pyFloatVal :=
  ⟨by decide, by decide, claim_C1_both_separators.1 "1,234.56" (by decide) (by decide)⟩

/-- Counterexample to claim C5: `parse_price_text "12.345"` yields 12.345
(the lone period is kept as the decimal point), not 12345. -/
theorem claim_C5_counterexample :
    parse_price_text "12.345" = some (12.345 : ℚ) ∧ (12.345 : ℚ) ≠ (12345 : ℚ) := by
  constructor
  · rw [parse_price_text, show parse_price_repr "12.345" = some (12345, 3) from by decide]
    show some (pyFloatVal (12345, 3)) = some (12.345 : ℚ)
    rw [Option.some.injEq, pyFloatVal]
    norm_num
  · norm_num

/-- Claim C5 amended: `parse_price_text "12.345" = 12.345`; a cleaned form
with exactly one period and no comma keeps the period as the decimal point
(the cleaned text is converted as is), and only when the cleaned form has
more than one period and no comma are all but the last period removed as
thousands separators. -/
theorem claim_C5_amended :
    parse_price_text "12.345" = some (12.345 : ℚ) ∧
    (∀ text : String, ',' ∉ clean_chars text → (clean_chars text).count '.' = 1 →
      parse_price_text text = (pyFloatRepr (clean_chars text)).map pyFloatVal) ∧
    (∀ text : String, ',' ∉ clean_chars text → 1 < (clean_chars text).count '.' →
      parse_price_text text =
        (pyFloatRepr (removeOcc '.' ((clean_chars text).count '.' - 1)
          (clean_chars text))).map pyFloatVal) := by
  refine ⟨?_, fun text hc hcount => ?_, fun text hc hcount => ?_⟩
  · rw [parse_price_text, show parse_price_repr "12.345" = some (12345, 3) from by decide]
    show some (pyFloatVal (12345, 3)) = some (12.345 : ℚ)
    rw [Option.some.injEq, pyFloatVal]
    norm_num
  · have hne : ¬(text = "") := by
      intro h
      subst h
      exact absurd hcount (by decide)
    unfold parse_price_text parse_price_repr
    rw [if_neg hne]
    dsimp only
    rw [if_neg (fun h => hc h.1), if_neg hc, if_neg (by rw [hcount]; norm_num)]
  · have hne : ¬(text = "") := by
      intro h
      subst h
      exact absurd hcount (by decide)
    unfold parse_price_text parse_price_repr
    rw [if_neg hne]
    dsimp only
    rw [if_neg (fun h => hc h.1), if_neg hc, if_pos hcount]

/-- Witness for the amended C5: the single-period case applied at "12.345". -/
theorem claim_C5_amended_witness :
    (',' ∉ clean_chars "12.345") ∧ ((clean_chars "12.345").count '.' = 1) ∧
    parse_price_text "12.345" = (pyFloatRepr (clean_chars "12.345")).map pyFloatVal :=
  ⟨by decide, by decide, claim_C5_amended.2.1 "12.345" (by decide) (by decide)⟩

/-! ## Claims about the store detector -/

/-- Claim C6: `detect_store` is a pure total function: it lower-cases the
URL and tests the ordered substring predicates with first match winning
(it agrees everywhere with the rule-list reading `detect_spec`), every URL
maps into the eight store identifiers ("generic" for unmatched ones), and
on the spec's examples it yields "mercadolibre" and "generic". -/
theorem claim_C6_detect_store_contract :
    (∀ url, detect_store url = detect_spec url) ∧
    (∀ url, detect_store url ∈ store_names) ∧
    detect_store "https://articulo.mercadolibre.com.ar/x" = "mercadolibre" ∧
    detect_store "https://unknownshop.com/p" = "generic" := by
  refine ⟨fun url => ?_, fun url => ?_, by decide, by decide⟩
  · unfold detect_store detect_spec store_rules
    simp only [List.find?, List.any_cons, List.any_nil, Bool.or_false]
    cases h1 : substrIn "mercadolibre" (py_lower url) <;>
    cases h2 : substrIn "meli" (py_lower url) <;>
    cases h3 : substrIn "amazon" (py_lower url) <;>
    cases h4 : substrIn "hardgamers" (py_lower url) <;>
    cases h5 : substrIn "garbarino" (py_lower url) <;>
    cases h6 : substrIn "fravega" (py_lower url) <;>
    cases h7 : substrIn "musimundo" (py_lower url) <;>
    cases h8 : substrIn "fullh4rd" (py_lower url) <;>
    simp [h1, h2, h3, h4, h5, h6, h7, h8]
  · unfold detect_store
    dsimp only
    split_ifs <;> simp [store_names]

/-! ## Claims about the orchestrator -/

/-- Claim C2: in every `ScrapeResult` returned by `scrape_product`, the
price is `none` exactly when the error field holds a non-empty
description; a price is never accompanied by an error, and a missing price
is always explained. -/
theorem claim_C2_price_error_iff (hf rf : String → Option Doc) (p : Product) :
    ((scrape_product hf rf p).price = none ↔
      ∃ e, (scrape_product hf rf p).error = some e ∧ e ≠ "") := by
  rw [scrape_product_eq]
  rcases h0 : scrape_with_bs4 hf p.url (resolve_store p) with _ | d0
  · rcases h1 : scrape_with_playwright rf p.url (resolve_store p) with _ | d1
    · exact ⟨fun _ => ⟨"No se pudo extraer el precio con BS4 ni Playwright.", rfl, by decide⟩,
        fun _ => rfl⟩
    · have ht := pw_some_truthy h1
      have hne : d1.price ≠ none := by
        intro hp
        rw [hp] at ht
        exact absurd ht (by simp [truthyPrice])
      simp [success_result, hne]
  · have ht := bs4_some_truthy h0
    have hne : d0.price ≠ none := by
      intro hp
      rw [hp] at ht
      exact absurd ht (by simp [truthyPrice])
    simp [success_result, hne]

/-- Claim C3: when the BS4 strategy yields no document or a document
without a truthy price, and the Playwright strategy yields a document whose
registered parser extracts a truthy price, `scrape_product` returns the
success result built from the heavy strategy's extracted data (price,
currency, stock, and the parser's name when non-empty). -/
theorem claim_C3_heavy_fallback (hf rf : String → Option Doc) (p : Product)
    (hlight : hf p.url = none ∨ ∃ doc, hf p.url = some doc ∧
      truthyPrice ((PARSERS_get (resolve_store p)) doc p.url).price = false)
    (doc : Doc) (hheavy : rf p.url = some doc)
    (hprice : truthyPrice ((PARSERS_get (resolve_store p)) doc p.url).price = true) :
    scrape_product hf rf p = success_result p ((PARSERS_get (resolve_store p)) doc p.url) ∧
    (scrape_product hf rf p).error = none ∧
    (scrape_product hf rf p).price = ((PARSERS_get (resolve_store p)) doc p.url).price ∧
    (scrape_product hf rf p).currency = ((PARSERS_get (resolve_store p)) doc p.url).currency ∧
    (scrape_product hf rf p).in_stock = ((PARSERS_get (resolve_store p)) doc p.url).in_stock ∧
    (scrape_product hf rf p).name =
      (if ((PARSERS_get (resolve_store p)) doc p.url).name ≠ ""
       then ((PARSERS_get (resolve_store p)) doc p.url).name else p.name) := by
  have h0 : scrape_with_bs4 hf p.url (resolve_store p) = none := by
    unfold scrape_with_bs4
    rcases hlight with h | ⟨d, hd, hfalse⟩
    · rw [h]
    · rw [hd]
      dsimp only
      rw [if_neg (by rw [hfalse]; simp)]
  have h1 : scrape_with_playwright rf p.url (resolve_store p) =
      some ((PARSERS_get (resolve_store p)) doc p.url) := by
    unfold scrape_with_playwright
    rw [hheavy]
    dsimp only
    rw [if_pos hprice]
  rw [scrape_product_eq, h0, h1]
  exact ⟨rfl, rfl, rfl, rfl, rfl, rfl⟩

/-- Claim C4: when both strategies fail to yield a price, the result has no
price, a non-empty error, `in_stock = false`, and the original input name. -/
theorem claim_C4_both_fail (hf rf : String → Option Doc) (p : Product)
    (h0 : scrape_with_bs4 hf p.url (resolve_store p) = none)
    (h1 : scrape_with_playwright rf p.url (resolve_store p) = none) :
    (scrape_product hf rf p).price = none ∧
    (∃ e, (scrape_product hf rf p).error = some e ∧ e ≠ "") ∧
    (scrape_product hf rf p).in_stock = false ∧
    (scrape_product hf rf p).name = p.name := by
  rw [scrape_product_eq, h0, h1]
  exact ⟨rfl, ⟨"No se pudo extraer el precio con BS4 ni Playwright.", rfl, by decide⟩, rfl, rfl⟩

/-- Witness for C4: both strategies fail on the fixture product. -/
theorem claim_C4_both_fail_witness :
    (scrape_product (fun _ => none) (fun _ => none) wit_product).price = none ∧
    (∃ e, (scrape_product (fun _ => none) (fun _ => none) wit_product).error = some e ∧ e ≠ "") ∧
    (scrape_product (fun _ => none) (fun _ => none) wit_product).in_stock = false ∧
    (scrape_product (fun _ => none) (fun _ => none) wit_product).name = wit_product.name :=
  claim_C4_both_fail (fun _ => none) (fun _ => none) wit_product rfl rfl

/-- Claim C7: `scrape_product` is a function of the source document
contents alone: two runs whose fetch strategies return the same documents
produce identical `ScrapeResult`s. -/
theorem claim_C7_deterministic (hf hf' rf rf' : String → Option Doc) (p : Product)
    (hbs : ∀ u, hf u = hf' u) (hpw : ∀ u, rf u = rf' u) :
    scrape_product hf rf p = scrape_product hf' rf' p := by
  have h1 : hf = hf' := funext hbs
  have h2 : rf = rf' := funext hpw
  rw [h1, h2]

/-- Witness for C7: two identical runs on the fixture product. -/
theorem claim_C7_deterministic_witness :
    scrape_product (fun _ => none) (fun _ => some wit_doc_price) wit_product =
      scrape_product (fun _ => none) (fun _ => some wit_doc_price) wit_product :=
  claim_C7_deterministic (fun _ => none) (fun _ => none)
    (fun _ => some wit_doc_price) (fun _ => some wit_doc_price) wit_product
    (fun _ => rfl) (fun _ => rfl)

/-! ## Non-negativity of parsed prices -/

theorem pyFloatVal_nonneg (r : Nat × Nat) : 0 ≤ pyFloatVal r := by
  unfold pyFloatVal
  positivity

theorem parse_price_text_nonneg {t : String} {q : ℚ} (h : parse_price_text t = some q) :
    0 ≤ q := by
  unfold parse_price_text at h
  rcases hr : parse_price_repr t with _ | r
  · rw [hr] at h
    simp at h
  · rw [hr] at h
    have hv : pyFloatVal r = q := by simpa using h
    rw [← hv]
    exact pyFloatVal_nonneg r

theorem az_price_loop_nonneg (frac : Option String) :
    ∀ (l : List (Option String)) (acc : Option ℚ),
      (∀ q : ℚ, acc = some q → 0 ≤ q) →
      ∀ q : ℚ, az_price_loop frac l acc = some q → 0 ≤ q := by
  intro l
  induction l with
  | nil =>
    intro acc hacc q h
    exact hacc q h
  | cons a rest ih =>
    intro acc hacc q h
    cases a with
    | none =>
      simp only [az_price_loop] at h
      exact ih acc hacc q h
    | some t =>
      rcases frac with _ | f <;> simp only [az_price_loop] at h
      · split at h
        · exact parse_price_text_nonneg h
        · exact ih _ (fun q' hq' => parse_price_text_nonneg hq') q h
      · split at h <;> split at h <;>
          first
            | exact parse_price_text_nonneg h
            | exact ih _ (fun q' hq' => parse_price_text_nonneg hq') q h

theorem first_pos_price_nonneg :
    ∀ (l : List String) {q : ℚ}, first_pos_price l = some q → 0 ≤ q := by
  intro l
  induction l with
  | nil =>
    intro q h
    simp [first_pos_price] at h
  | cons t ts ih =>
    intro q h
    rw [first_pos_price] at h
    split at h
    next p hp =>
      split at h
      · simp only [Option.some.injEq] at h
        subst h
        exact parse_price_text_nonneg hp
      · exact ih h
    next => exact ih h

theorem parse_mercadolibre_price_nonneg (soup : Doc) (url : String) {q : ℚ}
    (h : (parse_mercadolibre soup url).price = some q) : 0 ≤ q := by
  unfold parse_mercadolibre at h
  dsimp only at h
  split at h
  · exact parse_price_text_nonneg h
  · split at h
    · exact parse_price_text_nonneg h
    · simp at h

theorem parse_amazon_price_nonneg (soup : Doc) (url : String) {q : ℚ}
    (h : (parse_amazon soup url).price = some q) : 0 ≤ q := by
  unfold parse_amazon at h
  dsimp only at h
  exact az_price_loop_nonneg _ _ _ (fun q' hq' => by simp at hq') q h

theorem parse_hardgamers_price_nonneg (soup : Doc) (url : String) {q : ℚ}
    (h : (parse_hardgamers soup url).price = some q) : 0 ≤ q := by
  unfold parse_hardgamers at h
  dsimp only at h
  split at h
  · exact parse_price_text_nonneg h
  · simp at h

theorem parse_generic_price_nonneg (soup : Doc) (url : String) {q : ℚ}
    (h : (parse_generic soup url).price = some q) : 0 ≤ q := by
  unfold parse_generic at h
  dsimp only at h
  split at h
  · exact parse_price_text_nonneg h
  · exact first_pos_price_nonneg _ h

theorem PARSERS_get_cases (store : String) :
    PARSERS_get store = parse_mercadolibre ∨ PARSERS_get store = parse_amazon ∨
    PARSERS_get store = parse_hardgamers ∨ PARSERS_get store = parse_generic := by
  unfold PARSERS_get
  rcases h : PARSERS_list.find? (fun pr => pr.1 == store) with _ | pr
  · rw [h]
    exact Or.inr (Or.inr (Or.inr rfl))
  · rw [h]
    have hmem := List.mem_of_find?_eq_some h
    simp only [PARSERS_list, List.mem_cons, List.not_mem_nil, or_false] at hmem
    rcases hmem with h' | h' | h' | h' | h' | h' | h' | h' <;> rw [h']
    · exact Or.inl rfl
    · exact Or.inr (Or.inl rfl)
    · exact Or.inr (Or.inr (Or.inl rfl))
    all_goals exact Or.inr (Or.inr (Or.inr rfl))

theorem parser_price_nonneg (store : String) (soup : Doc) (url : String) {q : ℚ}
    (h : ((PARSERS_get store) soup url).price = some q) : 0 ≤ q := by
  rcases PARSERS_get_cases store with hc | hc | hc | hc <;> rw [hc] at h
  · exact parse_mercadolibre_price_nonneg soup url h
  · exact parse_amazon_price_nonneg soup url h
  · exact parse_hardgamers_price_nonneg soup url h
  · exact parse_generic_price_nonneg soup url h

theorem bs4_some_from_registry {hf : String → Option Doc} {url store : String} {d : RawData}
    (h : scrape_with_bs4 hf url store = some d) :
    ∃ soup, d = (PARSERS_get store) soup url := by
  unfold scrape_with_bs4 at h
  split at h
  · simp at h
  next soup heq =>
    dsimp only at h
    split at h
    · simp only [Option.some.injEq] at h
      exact ⟨soup, h.symm⟩
    · simp at h

theorem pw_some_from_registry {rf : String → Option Doc} {url store : String} {d : RawData}
    (h : scrape_with_playwright rf url store = some d) :
    ∃ soup, d = (PARSERS_get store) soup url := by
  unfold scrape_with_playwright at h
  split at h
  · simp at h
  next soup heq =>
    dsimp only at h
    split at h
    · simp only [Option.some.injEq] at h
      exact ⟨soup, h.symm⟩
    · simp at h

/-- Fixture evaluation: the og-price metadata "100" of `wit_doc_price`
parses to the value 100. -/
theorem wit_parse_100 : parse_price_text "100" = some (pyFloatVal (100, 0)) := by
  rw [parse_price_text, show parse_price_repr "100" = some (100, 0) from by decide]
  rfl

/-- Fixture evaluation: the generic parser extracts a truthy price from
`wit_doc_price` for the fixture product's resolved store. -/
theorem wit_doc_price_truthy :
    truthyPrice ((PARSERS_get (resolve_store wit_product)) wit_doc_price
      wit_product.url).price = true := by
  have h : ((PARSERS_get (resolve_store wit_product)) wit_doc_price wit_product.url).price =
      some (pyFloatVal (100, 0)) := by
    show parse_price_text "100" = some (pyFloatVal (100, 0))
    exact wit_parse_100
  rw [h]
  simp only [truthyPrice, decide_eq_true_eq]
  rw [pyFloatVal]
  norm_num

/-- Fixture evaluation: on the fixture product, an always-failing BS4
oracle and a Playwright oracle returning `wit_doc_price` produce the
success result for the parsed data. -/
theorem wit_success :
    scrape_product (fun _ => none) (fun _ => some wit_doc_price) wit_product =
      success_result wit_product
        ((PARSERS_get (resolve_store wit_product)) wit_doc_price wit_product.url) := by
  have h1 : scrape_with_playwright (fun _ => some wit_doc_price) wit_product.url
      (resolve_store wit_product) =
      some ((PARSERS_get (resolve_store wit_product)) wit_doc_price wit_product.url) := by
    unfold scrape_with_playwright
    dsimp only
    rw [if_pos wit_doc_price_truthy]
  rw [scrape_product_eq,
    show scrape_with_bs4 (fun _ => none) wit_product.url (resolve_store wit_product) = none
      from rfl, h1]

/-- Witness for C3: BS4 yields no document, Playwright yields
`wit_doc_price`, and the result is the heavy strategy's success data. -/
theorem claim_C3_heavy_fallback_witness :
    ((fun _ : String => (none : Option Doc)) wit_product.url = none) ∧
    ((fun _ : String => some wit_doc_price) wit_product.url = some wit_doc_price) ∧
    truthyPrice ((PARSERS_get (resolve_store wit_product)) wit_doc_price
      wit_product.url).price = true ∧
    scrape_product (fun _ => none) (fun _ => some wit_doc_price) wit_product =
      success_result wit_product
        ((PARSERS_get (resolve_store wit_product)) wit_doc_price wit_product.url) :=
  ⟨rfl, rfl, wit_doc_price_truthy,
    (claim_C3_heavy_fallback (fun _ => none) (fun _ => some wit_doc_price) wit_product
      (Or.inl rfl) wit_doc_price rfl wit_doc_price_truthy).1⟩

/-- Claim C9: parsed price text is never negative, and every successful
`ScrapeResult` (error unset) carries a strictly positive price — a zero or
missing parse is treated as "no price found", so success implies a price
`q` with `0 < q`. -/
theorem claim_C9_success_positive_price :
    (∀ (t : String) (q : ℚ), parse_price_text t = some q → 0 ≤ q) ∧
    (∀ (hf rf : String → Option Doc) (p : Product),
      (scrape_product hf rf p).error = none →
      ∃ q : ℚ, (scrape_product hf rf p).price = some q ∧ 0 < q) := by
  refine ⟨fun t q h => parse_price_text_nonneg h, fun hf rf p herr => ?_⟩
  have heq := scrape_product_eq hf rf p
  rcases h0 : scrape_with_bs4 hf p.url (resolve_store p) with _ | d0 <;> rw [h0] at heq
  · rcases h1 : scrape_with_playwright rf p.url (resolve_store p) with _ | d1 <;> rw [h1] at heq
    · rw [heq] at herr
      exact absurd herr (by simp [failed_result])
    · have ht := pw_some_truthy h1
      obtain ⟨soup, hsoup⟩ := pw_some_from_registry h1
      rcases hq : d1.price with _ | q
      · rw [hq] at ht
        exact absurd ht (by simp [truthyPrice])
      · have hqne : q ≠ 0 := by
          rw [hq] at ht
          simpa [truthyPrice] using ht
        have hnn : 0 ≤ q := parser_price_nonneg _ soup p.url (by rw [← hsoup]; exact hq)
        exact ⟨q, by rw [heq]; simp [success_result, hq], lt_of_le_of_ne hnn (Ne.symm hqne)⟩
  · have ht := bs4_some_truthy h0
    obtain ⟨soup, hsoup⟩ := bs4_some_from_registry h0
    rcases hq : d0.price with _ | q
    · rw [hq] at ht
      exact absurd ht (by simp [truthyPrice])
    · have hqne : q ≠ 0 := by
        rw [hq] at ht
        simpa [truthyPrice] using ht
      have hnn : 0 ≤ q := parser_price_nonneg _ soup p.url (by rw [← hsoup]; exact hq)
      exact ⟨q, by rw [heq]; simp [success_result, hq], lt_of_le_of_ne hnn (Ne.symm hqne)⟩

/-- Witness for C9: both parts applied at concrete inputs — the parsed
value of "100" is non-negative, and the fixture success run returns a
strictly positive price. -/
theorem claim_C9_success_positive_price_witness :
    ((0 : ℚ) ≤ pyFloatVal (100, 0)) ∧
    (∃ q : ℚ, (scrape_product (fun _ => none) (fun _ => some wit_doc_price)
      wit_product).price = some q ∧ 0 < q) :=
  ⟨claim_C9_success_positive_price.1 "100" (pyFloatVal (100, 0)) wit_parse_100,
   claim_C9_success_positive_price.2 (fun _ => none) (fun _ => some wit_doc_price)
     wit_product (by rw [wit_success]; rfl)⟩

/-- Claim C10: the generic fallback parser reports every document as in
stock (it performs no stock-phrase matching, so even a document whose text
matches the out-of-stock phrases is reported in stock), and it is the
registered parser for the garbarino, fravega, musimundo and fullh4rd
stores. -/
theorem claim_C10_generic_always_in_stock :
    (∀ (soup : Doc) (url : String), (parse_generic soup url).in_stock = true) ∧
    PARSERS_get "garbarino" = parse_generic ∧
    PARSERS_get "fravega" = parse_generic ∧
    PARSERS_get "musimundo" = parse_generic ∧
    PARSERS_get "fullh4rd" = parse_generic ∧
    (∀ (soup : Doc) (url : String), soup.ml_no_stock = true →
      (parse_generic soup url).in_stock = true) :=
  ⟨fun _ _ => rfl, rfl, rfl, rfl, rfl, fun _ _ _ => rfl⟩

/-- Witness for C10: a document carrying an out-of-stock phrase is still
reported in stock by the generic parser. -/
theorem claim_C10_generic_always_in_stock_witness :
    wit_doc_no_stock.ml_no_stock = true ∧
    (parse_generic wit_doc_no_stock "https://garbarino.com/p").in_stock = true :=
  ⟨rfl, claim_C10_generic_always_in_stock.2.2.2.2.2 wit_doc_no_stock
    "https://garbarino.com/p" rfl⟩

/-- Claim C8: a heavy-strategy invocation tears down its browser-rendering
session exactly once before returning, on every exit path (any prefix of
the awaited steps may throw): whenever a browser was launched the teardown
count is 1, and no teardown happens when no session was created. -/
theorem claim_C8_teardown_exactly_once (o : PwOracle) (url store : String) :
    ((o.import_ok && o.start_ok && o.launch_ok) = true →
      (scrape_with_playwright_async o url store).teardowns = 1) ∧
    ((o.import_ok && o.start_ok && o.launch_ok) = false →
      (scrape_with_playwright_async o url store).teardowns = 0) := by
  obtain ⟨imp, st, la, nc, np, ro, go, wa, co, cl, doc⟩ := o
  cases imp <;> cases st <;> cases la <;> cases nc <;> cases np <;> cases ro <;>
    cases go <;> cases wa <;> cases co <;> cases cl <;>
    exact ⟨fun h => by first | rfl | simp at h,
           fun h => by first | rfl | simp at h⟩

/-- Witness for C8: the all-steps-succeed session tears down exactly once. -/
theorem claim_C8_teardown_exactly_once_witness :
    (wit_oracle.import_ok && wit_oracle.start_ok && wit_oracle.launch_ok) = true ∧
    (scrape_with_playwright_async wit_oracle "https://unknownshop.com/p"
      "generic").teardowns = 1 :=
  ⟨rfl, (claim_C8_teardown_exactly_once wit_oracle "https://unknownshop.com/p" "generic").1 rfl⟩

/-- Witness for C2: the invariant instantiated on a concrete failing run. -/
theorem claim_C2_price_error_iff_witness :
    ((scrape_product (fun _ => none) (fun _ => none) wit_product).price = none ↔
      ∃ e, (scrape_product (fun _ => none) (fun _ => none) wit_product).error = some e ∧
        e ≠ "") :=
  claim_C2_price_error_iff (fun _ => none) (fun _ => none) wit_product

/-- Witness for C6: the detector contract instantiated on a concrete URL. -/
theorem claim_C6_detect_store_contract_witness :
    detect_store "https://www.fravega.com/p/tv" = detect_spec "https://www.fravega.com/p/tv" ∧
    detect_store "https://www.fravega.com/p/tv" ∈ store_names :=
  ⟨claim_C6_detect_store_contract.1 "https://www.fravega.com/p/tv",
   claim_C6_detect_store_contract.2.1 "https://www.fravega.com/p/tv"⟩
